import Mathlib

/-!
Shallow embedding of the session-management core of the rocq-ml-toolbox
inference package (`src/rocq_ml_toolbox/inference/`), covering:

* `sessions.py` — `Session`, `SessionManager.check_session`,
  `SessionManager._pet_ctx`, `SessionManager._get_state_at_pos`,
  `SessionManager.run` / `get_state_at_pos` / `get_root_state` / `start`
  op bodies, `SessionManager.ensure_pet_ok`, `SessionManager._alarm`,
  `SessionManager._pet_call`, `SessionManager.create_session`;
* `arbiter.py` — the per-message body of `monitor_redis_for_restarts`
  and `restart_single_pet_server`;
* `session_model.py` — `QueryKwargs`, `ParamsTree`, `MappingState`,
  `MappingTree`, `Session` and their JSON serializers;
* `client.py` — `StateExtended`.

Machine integers are modelled as `Int` (Python ints are unbounded),
JSON numbers as `ℚ` (Python floats are written down only as rational
literals in the code paths modelled here).  The external worker
(pytanque `Pytanque` client) is modelled by an oracle of pure response
functions; redis reads observed by one call are modelled as explicit
snapshot arguments; redis writes, worker RPCs and archival appends are
logged in explicit effect lists so that frame claims ("performs no
worker RPC", "publishes no probe") are statable.
-/

/-- JSON values, the common codomain of every `to_json` in the sources.
Python `dict` is modelled as an association list (insertion order is
what `json.dumps` serializes); Python distinguishes `int` from `float`
at this level only through `ℚ` denominators. -/
inductive Jv where
  | null
  | bool (b : Bool)
  | num (q : ℚ)
  | str (s : String)
  | arr (elems : List Jv)
  | obj (fields : List (String × Jv))

/-- Lookup of `data[key]` / `data.get(key)` on a JSON object; `none` both
for a missing key and for a non-object (Python would raise). -/
def jLookup : Jv → String → Option Jv
  | Jv.obj fields, key => (fields.find? (fun p => p.1 == key)).map (fun p => p.2)
  | _, _ => none

/-- Python truthiness of a JSON value (used by `QueryKwargs.from_json`:
`float(data["timeout"]) if data['timeout'] else None`). -/
def jTruthy : Jv → Bool
  | Jv.null => false
  | Jv.bool b => b
  | Jv.num q => q != 0
  | Jv.str s => s != ""
  | Jv.arr elems => !elems.isEmpty
  | Jv.obj fields => !fields.isEmpty

/-- Decode a JSON value as a Python `str`. -/
def jStr : Jv → Option String
  | Jv.str s => some s
  | _ => none

/-- Decode a JSON value as a Python `int` (a number with denominator 1). -/
def jInt : Jv → Option Int
  | Jv.num q => if q.den = 1 then some q.num else none
  | _ => none

/-- Decode a JSON value as a JSON array. -/
def jArr : Jv → Option (List Jv)
  | Jv.arr elems => some elems
  | _ => none

/-- Decode a JSON value as a JSON object. -/
def jObj : Jv → Option (List (String × Jv))
  | Jv.obj fields => some fields
  | _ => none

/-- Encode an optional string (`None` becomes JSON `null`). -/
def jOptStr : Option String → Jv
  | none => Jv.null
  | some s => Jv.str s

/-- Encode an optional int (`None` becomes JSON `null`). -/
def jOptInt : Option Int → Jv
  | none => Jv.null
  | some n => Jv.num (n : ℚ)

/-- Decode the value of an optional field read with `raw.get(k)`:
a missing key or JSON `null` is Python `None`. -/
def jOptFieldStr : Option Jv → Option (Option String)
  | none => some none
  | some Jv.null => some none
  | some j => (jStr j).map some

/-- Decode the value of an optional int field read with `raw.get(k)`. -/
def jOptFieldInt : Option Jv → Option (Option Int)
  | none => some none
  | some Jv.null => some none
  | some j => (jInt j).map some

/-- Sequential traversal of a Python list comprehension whose element
expression can raise: the first failing element fails the whole list. -/
def optionMapList {α β : Type} (f : α → Option β) : List α → Option (List β)
  | [] => some []
  | a :: rest => do
      let b ← f a
      let bs ← optionMapList f rest
      pure (b :: bs)

/-- Proof state as returned by the external pytanque worker.  pytanque is
not part of this repository; its `State` dataclass is modelled with its
fields `st`, `proof_finished`, `feedback`, `hash` and a field-map JSON
serializer, which is all the repository code relies on. -/
structure State where
  st : Int
  proof_finished : Option Bool
  feedback : List String
  hash : Option Int
deriving DecidableEq

/-- JSON form of a pytanque `State` (external, modelled as the plain
field map). -/
def State.to_json (s : State) : Jv :=
  Jv.obj [("st", Jv.num (s.st : ℚ)),
          ("proof_finished", match s.proof_finished with
            | none => Jv.null
            | some b => Jv.bool b),
          ("feedback", Jv.arr (s.feedback.map Jv.str)),
          ("hash", jOptInt s.hash)]

/-- Decode the `proof_finished` field. -/
def jOptFieldBool : Option Jv → Option (Option Bool)
  | none => some none
  | some Jv.null => some none
  | some (Jv.bool b) => some (some b)
  | some _ => none

/-- Parser for a pytanque `State` from JSON (external, modelled as the
inverse field map; a type mismatch is a raised exception, i.e. `none`). -/
def State.from_json (j : Jv) : Option State := do
  let stj ← jLookup j "st"
  let st ← jInt stj
  let pf ← jOptFieldBool (jLookup j "proof_finished")
  let fbj ← jLookup j "feedback"
  let fbl ← jArr fbj
  let feedback ← optionMapList jStr fbl
  let hash ← jOptFieldInt (jLookup j "hash")
  pure { st := st, proof_finished := pf, feedback := feedback, hash := hash }

/-- `client.py` `StateExtended(State)`: a worker state annotated with the
worker generation it was produced in. -/
structure StateExtended extends State where
  generation : Int
deriving DecidableEq

/-- `client.py` `StateExtended.to_state`: strip the generation tag. -/
def StateExtended.to_state (s : StateExtended) : State := s.toState

/-- `client.py` `StateExtended.from_state`: attach a generation tag. -/
def StateExtended.from_state (base : State) (gen : Int) : StateExtended :=
  { base with generation := gen }

/-- `client.py` `StateExtended.to_json`: the base state's JSON with a
`generation` entry appended (Python `base['generation'] = ...` appends
the key in insertion order). -/
def StateExtended.to_json (s : StateExtended) : Jv :=
  Jv.obj [("st", Jv.num (s.st : ℚ)),
          ("proof_finished", match s.proof_finished with
            | none => Jv.null
            | some b => Jv.bool b),
          ("feedback", Jv.arr (s.feedback.map Jv.str)),
          ("hash", jOptInt s.hash),
          ("generation", Jv.num (s.generation : ℚ))]

/-- `client.py` `StateExtended.from_json`: parse the base state, then
`generation = x.get("generation", 0)` with an `isinstance(gen, int)`
check (a non-int raises, i.e. `none`). -/
def StateExtended.from_json (j : Jv) : Option StateExtended := do
  let base ← State.from_json j
  let gen ← match jLookup j "generation" with
    | none => some 0
    | some g => jInt g
  pure { base with generation := gen }

/-- Model of pytanque `State.to_json_string` (external): `json.dumps` of
the state's JSON.  The exact rendering is immaterial to every theorem
below; all that is used is that it is a function of the state's fields,
so the same state always yields the same dictionary key. -/
def to_json_string (s : StateExtended) : String :=
  toString s.st ++ "|" ++
  (match s.proof_finished with | none => "n" | some b => toString b) ++ "|" ++
  String.intercalate "," s.feedback ++ "|" ++
  (match s.hash with | none => "n" | some h => toString h) ++ "|" ++
  toString s.generation

namespace Sessions

/-- `sessions.py` `Session`: the persisted per-client record.  The
Python dict `mapping_state : Dict[str, StateExtended]` (keys are
`to_json_string` of old states) is modelled as an association list in
which an insert prepends its entry and a lookup returns the first hit. -/
structure Session where
  session_id : String
  pet_idx : Int
  filepath : Option String
  line : Option Int
  character : Option Int
  tactics : List (StateExtended × String)
  generation : Option Int
  mapping_state : List (String × StateExtended)
deriving DecidableEq

/-- Dictionary lookup in a `mapping_state` association list
(`state_ext_str in sess.mapping_state` / `sess.mapping_state[...]`). -/
def msGet (m : List (String × StateExtended)) (key : String) : Option StateExtended :=
  (m.find? (fun p => p.1 == key)).map (fun p => p.2)

/-- Pure oracle for the worker RPCs one call performs: the pet-server is
an external subprocess, so its responses are parameters of the model. -/
structure WorkerOracle where
  getStateAtPos : String → Option Int → Option Int → State
  run : State → String → State
  getRootState : String → State
  start : String → String → State

/-- Observable side effects of one Session-Manager call: worker RPCs,
redis writes of the session record, and archival appends. -/
inductive Effect where
  | rpcGetStateAtPos (filepath : String) (line character : Option Int)
  | rpcRun (st : State) (tactic : String)
  | saveSession (sess : Session)
  | archiveSession (sess : Session)
deriving DecidableEq

/-- `sessions.py` `SessionManager._get_state_at_pos` under the worker
lock: consult the redis cache entry for (filepath, line, character,
generation, pet_idx); on a miss or a stale cached generation perform the
worker RPC and tag the result with the generation read during the call.
The trailing unconditional cache write is not observable by any claim
and is omitted from the effect list. -/
def get_state_at_pos_cached (generation : Int) (cache : Option StateExtended)
    (w : WorkerOracle) (filepath : String) (line character : Option Int) :
    StateExtended × List Effect :=
  match cache with
  | none =>
      (StateExtended.from_state (w.getStateAtPos filepath line character) generation,
       [Effect.rpcGetStateAtPos filepath line character])
  | some cached =>
      if cached.generation ≠ generation then
        (StateExtended.from_state (w.getStateAtPos filepath line character) generation,
         [Effect.rpcGetStateAtPos filepath line character])
      else (cached, [])

/-- Replay loop of `sessions.py` `SessionManager.check_session`:
`for old_state_ext, tactic in sess.tactics:` run the tactic on the
worker, tag the result with the current generation, and map the old
state's key to the fresh state.  Returns the updated mapping, the final
replayed state and the RPC effects. -/
def replayTactics (generation : Int) (w : WorkerOracle) :
    StateExtended → List (StateExtended × String) → List (String × StateExtended) →
    List (String × StateExtended) × StateExtended × List Effect
  | stExt, [], mapping => (mapping, stExt, [])
  | stExt, (old, tactic) :: rest, mapping =>
      let newState := w.run stExt.to_state tactic
      let newExt := StateExtended.from_state newState generation
      let mapping2 := (to_json_string old, newExt) :: mapping
      let r := replayTactics generation w newExt rest mapping2
      (r.1, r.2.1, Effect.rpcRun stExt.to_state tactic :: r.2.2)

/-- `sessions.py` `SessionManager.check_session` (success path): if the
session's recorded generation is current, return it unchanged; otherwise,
when a filepath is recorded, re-fetch the root state and replay the
recorded tactics, populating `mapping_state`; in either stale case set
the session's generation to the current one and persist the record. -/
def check_session (currentGeneration : Int) (w : WorkerOracle)
    (cache : Option StateExtended) (sess : Session) : Session × List Effect :=
  if sess.generation = some currentGeneration then (sess, [])
  else
    match sess.filepath with
    | none =>
        let sess2 := { sess with generation := some currentGeneration }
        (sess2, [Effect.saveSession sess2])
    | some fp =>
        let st0 := get_state_at_pos_cached currentGeneration cache w fp sess.line sess.character
        let r := replayTactics currentGeneration w st0.1 sess.tactics sess.mapping_state
        let sess2 := { sess with mapping_state := r.1, generation := some currentGeneration }
        (sess2, st0.2 ++ r.2.2 ++ [Effect.saveSession sess2])

/-- State-refresh part of `sessions.py` `SessionManager._pet_ctx` when a
`state_ext` argument is supplied: run `check_session`, then replace the
caller's state by `sess.mapping_state[state_ext.to_json_string()]` when
that key is present, and otherwise pass the caller's state through
unchanged. -/
def pet_ctx_refresh (currentGeneration : Int) (w : WorkerOracle)
    (cache : Option StateExtended) (sess : Session) (stateExt : StateExtended) :
    Session × StateExtended × List Effect :=
  let r := check_session currentGeneration w cache sess
  let refreshed := (msGet r.1.mapping_state (to_json_string stateExt)).getD stateExt
  (r.1, refreshed, r.2)

/-- `sessions.py` `SessionManager.run` op body composed with the
`_pet_ctx` refresh: refresh the submitted state, invoke `worker.run` on
it, tag the result with the *input* state's generation
(`StateExtended.from_state(new_state, state_ext.generation)`), append
`(new_state_ext, tactic)` to the session's tactics list and persist. -/
def run_call (currentGeneration : Int) (w : WorkerOracle)
    (cache : Option StateExtended) (sess : Session) (stateExt : StateExtended)
    (tactic : String) : Session × StateExtended × List Effect :=
  let r := pet_ctx_refresh currentGeneration w cache sess stateExt
  let newState := w.run r.2.1.to_state tactic
  let newExt := StateExtended.from_state newState r.2.1.generation
  let sess3 := { r.1 with tactics := r.1.tactics ++ [(newExt, tactic)] }
  (sess3, newExt, r.2.2 ++ [Effect.rpcRun r.2.1.to_state tactic, Effect.saveSession sess3])

/-- `sessions.py` `SessionManager.get_state_at_pos` op body (its
`_pet_ctx` is entered without a `state_ext`, so no refresh happens):
set the session's generation to the one read under the lock, fetch the
state at the position, archive the old session if it has recorded
tactics, then reset filepath/line/character, reset the tactics list to
the single root entry and clear `mapping_state`, persist, and return
the fetched state. -/
def get_state_at_pos_call (currentGeneration : Int) (w : WorkerOracle)
    (cache : Option StateExtended) (sess : Session) (filepath : String)
    (line character : Int) : Session × StateExtended × List Effect :=
  let sessG := { sess with generation := some currentGeneration }
  let st := get_state_at_pos_cached currentGeneration cache w filepath (some line) (some character)
  let archiveEffects := if sessG.tactics.isEmpty then [] else [Effect.archiveSession sessG]
  let sess2 := { sessG with
    filepath := some filepath,
    line := some line,
    character := some character,
    tactics := [(st.1, "")],
    mapping_state := [] }
  (sess2, st.1, st.2 ++ archiveEffects ++ [Effect.saveSession sess2])

/-- `sessions.py` `SessionManager.get_root_state` op body: read the
generation under the lock into the session record, invoke the worker and
tag the result with that generation.  Nothing is recorded in the tactics
history and the session is not persisted. -/
def get_root_state_call (currentGeneration : Int) (w : WorkerOracle)
    (file : String) : StateExtended :=
  StateExtended.from_state (w.getRootState file) currentGeneration

/-- `sessions.py` `SessionManager.start` op body: read the generation
under the lock, invoke the worker and tag the result with that
generation.  Nothing is recorded in the tactics history. -/
def start_call (currentGeneration : Int) (w : WorkerOracle)
    (file thm : String) : StateExtended :=
  StateExtended.from_state (w.start file thm) currentGeneration

/-- Snapshot of the two redis keys `SessionManager.ensure_pet_ok` reads
on one iteration: `pet_status:<i>` and `pet_monitor_epoch:<i>`. -/
structure KvView where
  status : Option String
  epoch : Option Int
deriving DecidableEq

/-- Message shape of an arbiter probe (`{id, reply_to}` published on
`arbiter:req:<i>`), as published by `cli.py` at startup.  A value of
this type in an effect list records one `redis_client.publish`. -/
structure ProbeMsg where
  channel : String
  id : String
  reply_to : String
deriving DecidableEq

/-- Outcome of `SessionManager.ensure_pet_ok`. -/
inductive EnsureOutcome where
  | ok
  | key_error
  | timeout_unavailable
deriving DecidableEq

/-- Polling loop of `sessions.py` `SessionManager.ensure_pet_ok`: each
iteration re-reads status and epoch and returns when the status decodes
to `OK` *and* the epoch is strictly greater than the starting epoch;
the list argument is the finite sequence of snapshots the loop observes
before `timeout` elapses, after which `RuntimeError` is raised. -/
def ensure_pet_ok_poll (startEpoch : Int) : List KvView → EnsureOutcome
  | [] => EnsureOutcome.timeout_unavailable
  | v :: rest =>
      if v.status = some "OK" ∧ v.epoch.getD 0 > startEpoch then EnsureOutcome.ok
      else ensure_pet_ok_poll startEpoch rest

/-- `sessions.py` `SessionManager.ensure_pet_ok`: record the starting
monitor epoch (missing key counts as 0), raise `KeyError` when the
status key is absent, then poll.  The second component is the list of
probe messages the function publishes: the source publishes nothing. -/
def ensure_pet_ok (start : KvView) (polls : List KvView) :
    EnsureOutcome × List ProbeMsg :=
  match start.status with
  | none => (EnsureOutcome.key_error, [])
  | some _ => (ensure_pet_ok_poll (start.epoch.getD 0) polls, [])

/-- Kinds of exception that can escape the body wrapped by
`sessions.py` `SessionManager._pet_ctx`. -/
inductive ExcKind where
  | petanque_error
  | key_error
  | value_error
  | unresponsive_error
  | runtime_error
  | other (name : String)
deriving DecidableEq

/-- What `_pet_ctx` surfaces to its caller for an escaping exception. -/
inductive SurfacedError where
  | reraised (kind : ExcKind)
  | wrapped_unresponsive (kind : ExcKind)
deriving DecidableEq

/-- Observable outcome of `_pet_ctx`'s exception handling:
whether `send_kill_signal` ran (it sets `pet_status:<i>` to
`RESTART_NEEDED` and drops the cached worker connection) and what error
the caller sees. -/
structure HandleOutcome where
  sets_restart_needed : Bool
  drops_worker_conn : Bool
  surfaced : SurfacedError
deriving DecidableEq

/-- Exception dispatch of `sessions.py` `SessionManager._pet_ctx`
(lines 334-344): `KeyError`, `PetanqueError` and `ValueError` are
re-raised unchanged; every other exception triggers
`send_kill_signal(pet_idx)` and is wrapped in `UnresponsiveError`. -/
def pet_ctx_handle : ExcKind → HandleOutcome
  | ExcKind.key_error =>
      { sets_restart_needed := false, drops_worker_conn := false,
        surfaced := SurfacedError.reraised ExcKind.key_error }
  | ExcKind.petanque_error =>
      { sets_restart_needed := false, drops_worker_conn := false,
        surfaced := SurfacedError.reraised ExcKind.petanque_error }
  | ExcKind.value_error =>
      { sets_restart_needed := false, drops_worker_conn := false,
        surfaced := SurfacedError.reraised ExcKind.value_error }
  | k =>
      { sets_restart_needed := true, drops_worker_conn := true,
        surfaced := SurfacedError.wrapped_unresponsive k }

/-- Ordered control-flow events of one `_pet_call` invocation. -/
inductive CallEvent where
  | acquire_lock (pet_idx : Int) (ttl : Int)
  | ensure_ok
  | reload_session
  | arm_alarm (seconds : Int)
  | invoke_op
  | disarm_alarm
  | release_lock
  | reject (label : String)
deriving DecidableEq

/-- `sessions.py` `SessionManager._alarm` wrapped around the op body:
a falsy `seconds` (Python `None` or `0`) yields immediately with no
alarm armed; otherwise `signal.alarm(int(seconds))` brackets the op. -/
def alarm_wrap : Option Int → List CallEvent
  | none => [CallEvent.invoke_op]
  | some s =>
      if s = 0 then [CallEvent.invoke_op]
      else [CallEvent.arm_alarm s, CallEvent.invoke_op, CallEvent.disarm_alarm]

/-- Event trace of the success path of `sessions.py`
`SessionManager._pet_call` / `_pet_ctx`: acquire the worker lock with
ttl `timeout_ok + timeout_eps`, run `ensure_pet_ok`, reload the session,
then run the op under `_alarm(timeout)`, and release the lock in the
`finally` block.  No step inspects `timeout` before the lock is taken. -/
def pet_call_trace (petIdx : Int) (timeout : Option Int)
    (timeoutOk timeoutEps : Int) : List CallEvent :=
  CallEvent.acquire_lock petIdx (timeoutOk + timeoutEps) ::
  CallEvent.ensure_ok ::
  CallEvent.reload_session ::
  alarm_wrap timeout ++ [CallEvent.release_lock]

/-- Helper to test whether a call event is a rejection. -/
def CallEvent.is_reject : CallEvent → Bool
  | CallEvent.reject _ => true
  | _ => false

/-- `sessions.py` `SessionManager.get_assigned_idx`: read the global
counter key, defaulting to 0 when unset. -/
def get_assigned_idx (counter : Option Int) : Int :=
  counter.getD 0

/-- Index-assignment step of `sessions.py`
`SessionManager.create_session`: `incr` the global counter (redis `INCR`
creates a missing key at 0 and increments), then read it back and take
it modulo `num_pet_server`.  Returns the new counter key value and the
assigned index. -/
def create_session_assign (numPetServer : Int) (counter : Option Int) :
    Option Int × Int :=
  let c := counter.getD 0 + 1
  (some c, c % numPetServer)

/-- Worker indices assigned by `k` back-to-back `create_session` calls
starting from counter state `counter`. -/
def assign_seq (numPetServer : Int) : Nat → Option Int → List Int
  | 0, _ => []
  | Nat.succ k, counter =>
      let r := create_session_assign numPetServer counter
      r.2 :: assign_seq numPetServer k r.1

end Sessions

namespace Arbiter

/-- Per-worker redis keys owned by the arbiter: `pet_status:<i>`,
`generation:<i>` and `pet_monitor_epoch:<i>`. -/
structure ArbiterKv where
  status : Option String
  generation : Option Int
  epoch : Option Int
deriving DecidableEq

/-- Observable side effects of the arbiter's per-message handling. -/
inductive ArbEffect where
  | terminate_worker
  | spawn_worker
  | set_status (value : String)
  | set_generation (value : Int)
  | publish_reply (channel : String) (id : String) (resp : String)
  | incr_epoch
deriving DecidableEq

/-- `arbiter.py` `restart_single_pet_server`: terminate the old
subprocess, spawn a new one on the same port, set
`generation:<i> := generation + 1` (missing key counts as 0), wait the
settling interval, then set `pet_status:<i> := OK`. -/
def restart_single_pet_server (kv : ArbiterKv) : ArbiterKv × List ArbEffect :=
  let newGen := kv.generation.getD 0 + 1
  ({ kv with generation := some newGen, status := some "OK" },
   [ArbEffect.terminate_worker, ArbEffect.spawn_worker,
    ArbEffect.set_generation newGen, ArbEffect.set_status "OK"])

/-- Body of `arbiter.py` `monitor_redis_for_restarts` for one received
request message `{id, reply_to}` on `arbiter:req:<i>` (lines 169-186):
if the subprocess has exited set `pet_status:<i> := RESTART_NEEDED`;
if the status then reads `RESTART_NEEDED` run
`restart_single_pet_server`; finally publish `{id, resp: "OK"}` on the
requested reply channel and go back to listening. -/
def monitor_redis_for_restarts_step (procExited : Bool) (kv : ArbiterKv)
    (reqId replyTo : String) : ArbiterKv × List ArbEffect :=
  let r1 :=
    if procExited then
      ({ kv with status := some "RESTART_NEEDED" },
       [ArbEffect.set_status "RESTART_NEEDED"])
    else (kv, [])
  let r2 :=
    if r1.1.status = some "RESTART_NEEDED" then
      let r := restart_single_pet_server r1.1
      (r.1, r1.2 ++ r.2)
    else r1
  (r2.1, r2.2 ++ [ArbEffect.publish_reply replyTo reqId "OK"])

end Arbiter

namespace Sessions

/-- JSON form of `sessions.py` `Session.to_json`: the dict literal of
lines 66-76, in its insertion order.  A `tactics` entry is the pair
`(st.to_json(), tac)`, a two-element sequence; `mapping_state` keys are
already strings (`str(k)` is the identity on them). -/
def Session.to_json (s : Session) : Jv :=
  Jv.obj [("session_id", Jv.str s.session_id),
          ("pet_idx", Jv.num (s.pet_idx : ℚ)),
          ("filepath", jOptStr s.filepath),
          ("line", jOptInt s.line),
          ("character", jOptInt s.character),
          ("tactics", Jv.arr (s.tactics.map
            (fun p => Jv.arr [StateExtended.to_json p.1, Jv.str p.2]))),
          ("generation", jOptInt s.generation),
          ("mapping_state", Jv.obj (s.mapping_state.map
            (fun p => (p.1, StateExtended.to_json p.2))))]

/-- Parser for one serialized `tactics` entry (`for st_json, tac in
raw.get("tactics", [])` with `StateExtended.from_json(st_json)`). -/
def Session.tactic_from_json : Jv → Option (StateExtended × String)
  | Jv.arr [sj, Jv.str tac] => (StateExtended.from_json sj).map (fun st => (st, tac))
  | _ => none

/-- `sessions.py` `Session.from_json` (lines 49-64): `session_id` and
`pet_idx` are required, the other fields are read with `.get` and
default to `None` / `[]` / the empty dict. -/
def Session.from_json (j : Jv) : Option Session := do
  let tacticsJ ← match jLookup j "tactics" with
    | none => some []
    | some tj => jArr tj
  let tactics ← optionMapList Session.tactic_from_json tacticsJ
  let msJ ← match jLookup j "mapping_state" with
    | none => some []
    | some mj => jObj mj
  let mapping ← optionMapList
    (fun p => (StateExtended.from_json p.2).map (fun v => (p.1, v))) msJ
  let sidj ← jLookup j "session_id"
  let sid ← jStr sidj
  let pij ← jLookup j "pet_idx"
  let petIdx ← jInt pij
  let filepath ← jOptFieldStr (jLookup j "filepath")
  let line ← jOptFieldInt (jLookup j "line")
  let character ← jOptFieldInt (jLookup j "character")
  let generation ← jOptFieldInt (jLookup j "generation")
  pure { session_id := sid, pet_idx := petIdx, filepath := filepath,
         line := line, character := character, tactics := tactics,
         generation := generation, mapping_state := mapping }

end Sessions

namespace SessionModel

/-- `session_model.py` `QueryKwargs`: the recorded RPC that produced a
state.  `RouteName` is a pytanque string enum (external), modelled by
its string value; `Params` is the per-route pytanque dataclass
(external), modelled by its JSON value with the identity serializer. -/
structure QueryKwargs where
  route_name : String
  params : Jv
  timeout : Option ℚ

/-- `session_model.py` `QueryKwargs.to_json` (lines 69-74). -/
def QueryKwargs.to_json (qk : QueryKwargs) : Jv :=
  Jv.obj [("route_name", Jv.str qk.route_name),
          ("params", qk.params),
          ("timeout", match qk.timeout with
            | none => Jv.null
            | some q => Jv.num q)]

/-- `session_model.py` `QueryKwargs.from_json` (lines 59-67):
`timeout` is decoded as `float(data["timeout"]) if data['timeout'] else
None`, so a falsy stored timeout (JSON `null` or the number 0) decodes
to `None`; `float` of a non-number is a raised `ValueError`. -/
def QueryKwargs.from_json (j : Jv) : Option QueryKwargs := do
  let rnj ← jLookup j "route_name"
  let rn ← jStr rnj
  let ps ← jLookup j "params"
  let tj ← jLookup j "timeout"
  let t ←
    if jTruthy tj then
      match tj with
      | Jv.num q => some (some q)
      | _ => none
    else some none
  pure { route_name := rn, params := ps, timeout := t }

mutual
/-- `session_model.py` `ParamsTree`: one history node with its subtree.
The `parent` back-pointer of the Python dataclass is derived data (it is
reconstructed from nesting by `from_json` and never serialized) and the
`redis_key` dataclass field is the constant `"params_tree"`; neither is
part of the tree's serialized content and both are omitted here.  The
children list is a mutually inductive list so that the serializers below
are structurally recursive. -/
inductive ParamsTree where
  | mk (state_key : String) (query_kwargs : QueryKwargs) (id : String)
       (children : ParamsTreeChildren)
/-- List of `ParamsTree` children. -/
inductive ParamsTreeChildren where
  | nil
  | cons (head : ParamsTree) (tail : ParamsTreeChildren)
end

mutual
/-- `session_model.py` `ParamsTree.to_json` (lines 131-137): the field
dict with recursively serialized children. -/
def ParamsTree.to_json : ParamsTree → Jv
  | ParamsTree.mk sk qk nodeId cs =>
      Jv.obj [("state_key", Jv.str sk),
              ("query_kwargs", QueryKwargs.to_json qk),
              ("children", Jv.arr (ParamsTreeChildren.to_json_list cs)),
              ("id", Jv.str nodeId)]
/-- Serialize a children list. -/
def ParamsTreeChildren.to_json_list : ParamsTreeChildren → List Jv
  | ParamsTreeChildren.nil => []
  | ParamsTreeChildren.cons c cs =>
      ParamsTree.to_json c :: ParamsTreeChildren.to_json_list cs
end

mutual
/-- `session_model.py` `ParamsTree.from_json` (lines 139-153): read
`id`, `state_key`, `query_kwargs`, then parse `data.get("children", [])`
recursively, re-attaching each child to its parent.  Python's recursion
is bounded by the nesting of the input dict; the `fuel` argument makes
that bound explicit (any fuel at least the tree height suffices, see
`SessionModel.from_json_to_json_height`). -/
def ParamsTree.from_json : Nat → Jv → Option ParamsTree
  | 0, _ => none
  | Nat.succ n, j => do
      let skj ← jLookup j "state_key"
      let sk ← jStr skj
      let qkj ← jLookup j "query_kwargs"
      let qk ← QueryKwargs.from_json qkj
      let idj ← jLookup j "id"
      let nodeId ← jStr idj
      let cjs ← match jLookup j "children" with
        | none => some []
        | some cj => jArr cj
      let cs ← ParamsTreeChildren.from_json_list n cjs
      pure (ParamsTree.mk sk qk nodeId cs)
termination_by n _ => (n, 0)
/-- Parse a serialized children list with the given fuel per child. -/
def ParamsTreeChildren.from_json_list : Nat → List Jv → Option ParamsTreeChildren
  | _, [] => some ParamsTreeChildren.nil
  | n, j :: js => do
      let c ← ParamsTree.from_json n j
      let cs ← ParamsTreeChildren.from_json_list n js
      pure (ParamsTreeChildren.cons c cs)
termination_by n js => (n, js.length + 1)
end

mutual
/-- Height of a `ParamsTree` (a leaf has height 1). -/
def ParamsTree.height : ParamsTree → Nat
  | ParamsTree.mk _ _ _ cs => ParamsTreeChildren.height_list cs + 1
/-- Maximal height among a children list. -/
def ParamsTreeChildren.height_list : ParamsTreeChildren → Nat
  | ParamsTreeChildren.nil => 0
  | ParamsTreeChildren.cons c cs =>
      max (ParamsTree.height c) (ParamsTreeChildren.height_list cs)
end

mutual
/-- Whether no node of the tree carries the falsy timeout `0`, the one
value on which `QueryKwargs` deserialization is not inverse to
serialization. -/
def ParamsTree.good_timeouts : ParamsTree → Bool
  | ParamsTree.mk _ qk _ cs =>
      (qk.timeout != some 0) && ParamsTreeChildren.good_timeouts_list cs
/-- `good_timeouts` over a children list. -/
def ParamsTreeChildren.good_timeouts_list : ParamsTreeChildren → Bool
  | ParamsTreeChildren.nil => true
  | ParamsTreeChildren.cons c cs =>
      ParamsTree.good_timeouts c && ParamsTreeChildren.good_timeouts_list cs
end

/-- `session_model.py` `MappingState`: per-session map from old state
keys to fresh pytanque states.  The `redis_key` dataclass field is the
constant `"mapping_state"` and is omitted. -/
structure MappingState where
  mapping : List (String × State)

/-- `session_model.py` `MappingState.to_json` (lines 166-169). -/
def MappingState.to_json (ms : MappingState) : Jv :=
  Jv.obj [("mapping", Jv.obj (ms.mapping.map (fun p => (p.1, State.to_json p.2))))]

/-- `session_model.py` `MappingState.from_json` (lines 160-164). -/
def MappingState.from_json (j : Jv) : Option MappingState := do
  let mj ← jLookup j "mapping"
  let fs ← jObj mj
  let entries ← optionMapList (fun p => (State.from_json p.2).map (fun v => (p.1, v))) fs
  pure { mapping := entries }

/-- `session_model.py` `MappingTree`: per-session index from a state key
to the id of the history tree that can reproduce it. -/
structure MappingTree where
  mapping : List (String × String)

/-- `session_model.py` `MappingTree.to_json` (lines 198-201). -/
def MappingTree.to_json (mt : MappingTree) : Jv :=
  Jv.obj [("mapping", Jv.obj (mt.mapping.map (fun p => (p.1, Jv.str p.2))))]

/-- `session_model.py` `MappingTree.from_json` (lines 194-196). -/
def MappingTree.from_json (j : Jv) : Option MappingTree := do
  let mj ← jLookup j "mapping"
  let fs ← jObj mj
  let entries ← optionMapList (fun p => (jStr p.2).map (fun v => (p.1, v))) fs
  pure { mapping := entries }

/-- `session_model.py` `Session` (lines 225-242): the newer persisted
session record, reduced to the worker index and the id. -/
structure Session where
  pet_idx : Int
  id : String
deriving DecidableEq

/-- `session_model.py` `Session.to_json` (lines 238-242). -/
def Session.to_json (s : Session) : Jv :=
  Jv.obj [("id", Jv.str s.id), ("pet_idx", Jv.num (s.pet_idx : ℚ))]

/-- `session_model.py` `Session.from_json` (lines 231-236). -/
def Session.from_json (j : Jv) : Option Session := do
  let idj ← jLookup j "id"
  let sid ← jStr idj
  let pij ← jLookup j "pet_idx"
  let petIdx ← jInt pij
  pure { pet_idx := petIdx, id := sid }

end SessionModel

/-- Worker oracle whose every response is the zero state; concrete
executions below do not depend on the worker's answers. -/
def oracle0 : Sessions.WorkerOracle where
  getStateAtPos := fun _ _ _ => { st := 0, proof_finished := none, feedback := [], hash := none }
  run := fun _ _ => { st := 0, proof_finished := none, feedback := [], hash := none }
  getRootState := fun _ => { st := 0, proof_finished := none, feedback := [], hash := none }
  start := fun _ _ => { st := 0, proof_finished := none, feedback := [], hash := none }

/-- A client-held state handle tagged with generation 0. -/
def staleState : StateExtended :=
  { st := 7, proof_finished := none, feedback := [], hash := none, generation := 0 }

/-- A session with no recorded filepath whose generation 0 is stale once
the worker is at generation 1 (its states came from `start` or
`get_root_state`, which record nothing). -/
def nofileSession : Sessions.Session :=
  { session_id := "sess-a", pet_idx := 0, filepath := none, line := none,
    character := none, tactics := [], generation := some 0, mapping_state := [] }

/-- A session with no recorded filepath whose generation matches the
current one, so `check_session` performs no replay at all. -/
def currentGenSession : Sessions.Session :=
  { nofileSession with session_id := "sess-c", generation := some 1 }

/-- Recorded root state of the sample replayable session. -/
def recState1 : StateExtended :=
  { st := 1, proof_finished := none, feedback := [], hash := none, generation := 1 }

/-- Recorded tactic state of the sample replayable session. -/
def recState2 : StateExtended := { recState1 with st := 2 }

/-- A session with a recorded filepath and a two-entry tactics history,
currently at generation 1. -/
def historySession : Sessions.Session :=
  { session_id := "sess-d", pet_idx := 0, filepath := some "f", line := some 0,
    character := some 0, tactics := [(recState1, ""), (recState2, "tac1")],
    generation := some 1, mapping_state := [] }

/-- The same recorded session, stale with respect to generation 1. -/
def staleHistorySession : Sessions.Session :=
  { historySession with session_id := "sess-e", generation := some 0 }

/-- A stale session without a filepath but with recorded tactics and a
nonempty mapping, to exhibit the fields `check_session` leaves alone. -/
def staleNofileSession : Sessions.Session :=
  { historySession with
    session_id := "sess-b",
    filepath := none,
    generation := some 0,
    mapping_state := [("key0", recState1)] }

/-- A recorded RPC with a nonzero timeout. -/
def qkSample : SessionModel.QueryKwargs :=
  { route_name := "run", params := Jv.null, timeout := some 2 }

/-- A two-node history tree. -/
def treeSample : SessionModel.ParamsTree :=
  SessionModel.ParamsTree.mk "0:1" qkSample "id1"
    (SessionModel.ParamsTreeChildren.cons
      (SessionModel.ParamsTree.mk "0:2" qkSample "id2" SessionModel.ParamsTreeChildren.nil)
      SessionModel.ParamsTreeChildren.nil)

/-- A one-entry `MappingState`. -/
def msSample : SessionModel.MappingState :=
  { mapping := [("0:1", { st := 3, proof_finished := some true, feedback := ["a"], hash := some 9 })] }

/-- A one-entry `MappingTree`. -/
def mtSample : SessionModel.MappingTree := { mapping := [("0:1", "id1")] }

/-- A `session_model.py` session record. -/
def smSample : SessionModel.Session := { pet_idx := 2, id := "abc" }

/-- A fully populated `sessions.py` session record. -/
def sessSample : Sessions.Session :=
  { session_id := "s1", pet_idx := 1, filepath := some "f.v", line := some 10,
    character := some 0, tactics := [(recState1, "intro.")], generation := some 3,
    mapping_state := [("key1", recState2)] }

namespace Sessions

/-- Lookup in an association list after prepending one entry. -/
theorem msGet_cons (k1 : String) (v1 : StateExtended)
    (m : List (String × StateExtended)) (key : String) :
    msGet ((k1, v1) :: m) key = if k1 = key then some v1 else msGet m key := by
  by_cases h : k1 = key <;> simp [msGet, List.find?_cons, h]

/-- The `check_session` success path never touches the tactics list. -/
theorem check_session_preserves_tactics (gen : Int) (w : WorkerOracle)
    (cache : Option StateExtended) (sess : Session) :
    (check_session gen w cache sess).1.tactics = sess.tactics := by
  unfold check_session
  split
  · rfl
  · cases h : sess.filepath <;> simp [h]

/-- Replay invariant: if the key already maps to a current-generation
state, or is the key of one of the old states still to be replayed, then
after the replay loop it maps to a current-generation state. -/
theorem replay_preserves_fresh (gen : Int) (w : WorkerOracle) (key : String) :
    ∀ (tacs : List (StateExtended × String)) (st : StateExtended)
      (m : List (String × StateExtended)),
    ((∃ v, msGet m key = some v ∧ v.generation = gen) ∨
      ∃ p ∈ tacs, to_json_string p.1 = key) →
    ∃ v, msGet (replayTactics gen w st tacs m).1 key = some v ∧ v.generation = gen := by
  intro tacs
  induction tacs with
  | nil =>
      intro st m h
      rcases h with h | ⟨p, hp, _⟩
      · simpa [replayTactics] using h
      · simp at hp
  | cons hd rest ih =>
      intro st m h
      obtain ⟨old, tac⟩ := hd
      simp only [replayTactics]
      apply ih
      by_cases hk : to_json_string old = key
      · left
        refine ⟨StateExtended.from_state (w.run st.to_state tac) gen, ?_, rfl⟩
        simp [msGet_cons, hk]
      · rcases h with h | ⟨p, hp, hpk⟩
        · left
          obtain ⟨v, hv, hvgen⟩ := h
          exact ⟨v, by simp [msGet_cons, hk, hv], hvgen⟩
        · rcases List.mem_cons.mp hp with hEq | hMem
          · exfalso
            apply hk
            rw [hEq] at hpk
            exact hpk
          · exact Or.inr ⟨p, hMem, hpk⟩

end Sessions

/-- C1 (corrected, counterexample): a session whose states were not
recorded in a replayable history (here: no filepath, so `check_session`
has nothing to replay, and `mapping_state` stays empty) has its stale
generation-0 handle passed through `_pet_ctx` unchanged while the worker
is at generation 1 — the Session Manager hands the stale handle itself
to the subsequent worker RPC instead of a fresh image or a clean
failure. -/
theorem c1_stale_passthrough_counterexample :
    (Sessions.pet_ctx_refresh 1 oracle0 none nofileSession staleState).2.1 = staleState ∧
    staleState.generation ≠ 1 := by
  decide

/-- C1 (corrected, amended): for a session with a recorded filepath
whose generation is stale, any submitted state that occurs among the old
states of the recorded tactics history is replaced by `_pet_ctx` with a
fresh image of the current generation taken from `mapping_state` after
replay. -/
theorem c1_refreshed_image_after_replay (gen : Int) (w : Sessions.WorkerOracle)
    (cache : Option StateExtended) (sess : Sessions.Session) (s : StateExtended)
    (fp : String) (hfp : sess.filepath = some fp)
    (hstale : sess.generation ≠ some gen)
    (hmem : s ∈ sess.tactics.map Prod.fst) :
    ∃ fresh,
      Sessions.msGet (Sessions.pet_ctx_refresh gen w cache sess s).1.mapping_state
          (to_json_string s) = some fresh ∧
      (Sessions.pet_ctx_refresh gen w cache sess s).2.1 = fresh ∧
      fresh.generation = gen := by
  have hcover :
      ∃ v, Sessions.msGet
          (Sessions.replayTactics gen w
            (Sessions.get_state_at_pos_cached gen cache w fp sess.line sess.character).1
            sess.tactics sess.mapping_state).1 (to_json_string s) = some v ∧
        v.generation = gen := by
    apply Sessions.replay_preserves_fresh
    right
    obtain ⟨p, hp, hps⟩ := List.mem_map.mp hmem
    exact ⟨p, hp, by rw [hps]⟩
  obtain ⟨v, hv, hvgen⟩ := hcover
  refine ⟨v, ?_, ?_, hvgen⟩
  · simp [Sessions.pet_ctx_refresh, Sessions.check_session, hstale, hfp]
    exact hv
  · simp [Sessions.pet_ctx_refresh, Sessions.check_session, hstale, hfp, hv]

/-- C1 witness: the amended statement at a concrete stale session with a
recorded two-entry history, for its recorded root state. -/
theorem c1_refreshed_image_witness :
    ∃ fresh,
      Sessions.msGet
          (Sessions.pet_ctx_refresh 1 oracle0 none staleHistorySession recState1).1.mapping_state
          (to_json_string recState1) = some fresh ∧
      (Sessions.pet_ctx_refresh 1 oracle0 none staleHistorySession recState1).2.1 = fresh ∧
      fresh.generation = 1 :=
  c1_refreshed_image_after_replay 1 oracle0 none staleHistorySession recState1 "f"
    rfl (by decide) (by decide)

/-- C2 (code bug): `ensure_pet_ok` publishes no probe at all — its probe
message list is empty on every execution — and on a worker whose status
is a steady `OK` but whose monitor epoch never moves past its starting
value (which is what happens in this package, where nothing ever
increments `pet_monitor_epoch:<i>` and nothing publishes per-call
probes on `arbiter:req:<i>`), every poll iteration fails the
`epoch > start_epoch` test and the call times out with `RuntimeError`
even though the worker is healthy. -/
theorem c2_ensure_pet_ok_polls_without_probe :
    (∀ (start : Sessions.KvView) (polls : List Sessions.KvView),
      (Sessions.ensure_pet_ok start polls).2 = []) ∧
    (∀ (e : Int) (n : Nat),
      Sessions.ensure_pet_ok { status := some "OK", epoch := some e }
          (List.replicate n { status := some "OK", epoch := some e })
        = (Sessions.EnsureOutcome.timeout_unavailable, [])) := by
  constructor
  · intro start polls
    cases h : start.status <;> simp [Sessions.ensure_pet_ok, h]
  · intro e n
    simp only [Sessions.ensure_pet_ok]
    induction n with
    | zero => rfl
    | succ k ih =>
        simp only [List.replicate] at ih ⊢
        simp only [Sessions.ensure_pet_ok_poll] at ih ⊢
        simp only [Option.getD_some] at ih ⊢
        rw [if_neg]
        · exact ih
        · intro hcond
          exact absurd hcond.2 (by simp)

/-- C3 (code bug): the per-message body of the arbiter's supervisor loop
publishes the `{id, resp: "OK"}` reply but neither writes nor increments
`pet_monitor_epoch:<i>` in any branch: the epoch key is unchanged and no
increment effect is emitted, so a waiter requiring the epoch to move
past its recorded starting value can never proceed. -/
theorem c3_supervisor_reply_without_epoch_bump
    (procExited : Bool) (kv : Arbiter.ArbiterKv) (reqId replyTo : String) :
    (Arbiter.monitor_redis_for_restarts_step procExited kv reqId replyTo).1.epoch = kv.epoch ∧
    Arbiter.ArbEffect.incr_epoch ∉
      (Arbiter.monitor_redis_for_restarts_step procExited kv reqId replyTo).2 ∧
    Arbiter.ArbEffect.publish_reply replyTo reqId "OK" ∈
      (Arbiter.monitor_redis_for_restarts_step procExited kv reqId replyTo).2 := by
  unfold Arbiter.monitor_redis_for_restarts_step Arbiter.restart_single_pet_server
  cases procExited with
  | false =>
      by_cases h : kv.status = some "RESTART_NEEDED" <;> simp [h]
  | true =>
      simp

/-- C4 (corrected, counterexample): a `run` call on a session already at
the current generation 1, submitting a handle tagged 0 that has no
`mapping_state` image, returns a state whose generation tag is the
input's generation 0, not the current generation 1 read under the lock. -/
theorem c4_run_generation_counterexample :
    (Sessions.run_call 1 oracle0 none currentGenSession staleState "tac").2.1.generation
      = staleState.generation ∧
    (Sessions.run_call 1 oracle0 none currentGenSession staleState "tac").2.1.generation
      ≠ 1 := by
  decide

/-- C4 (corrected, amended): `get_state_at_pos`, `get_root_state` and
`start` tag their returned state with the generation read under the lock
during the call, while `run` tags its returned state with the generation
of its (possibly refreshed) input state rather than re-reading the
counter. -/
theorem c4_returned_generation_tags (gen : Int) (w : Sessions.WorkerOracle)
    (cache : Option StateExtended) (sess : Sessions.Session) (s : StateExtended)
    (tactic fp file thm : String) (line character : Option Int) :
    (Sessions.get_state_at_pos_cached gen cache w fp line character).1.generation = gen ∧
    (Sessions.get_root_state_call gen w file).generation = gen ∧
    (Sessions.start_call gen w file thm).generation = gen ∧
    (Sessions.run_call gen w cache sess s tactic).2.1.generation
      = (Sessions.pet_ctx_refresh gen w cache sess s).2.1.generation := by
  refine ⟨?_, rfl, rfl, rfl⟩
  unfold Sessions.get_state_at_pos_cached
  cases cache with
  | none => rfl
  | some cached =>
      by_cases h : cached.generation = gen <;>
        simp [h, StateExtended.from_state]

/-- C5 (corrected, counterexample): an initial-session route call
(`get_state_at_pos`) does not leave earlier recorded history in place:
the node recorded for an earlier `run` is gone from the session's
history after the call. -/
theorem c5_history_reset_counterexample :
    (recState2, "tac1") ∈ historySession.tactics ∧
    (recState2, "tac1") ∉
      (Sessions.get_state_at_pos_call 1 oracle0 none historySession "g" 5 2).1.tactics := by
  decide

/-- C5 (corrected, amended): the recorded history is one flat list, not
a forest: `get_state_at_pos` archives the previous nonempty history and
resets the list to the single root entry with an empty `mapping_state`,
and `run` appends its `(new_state, tactic)` pair at the end of the flat
list regardless of which recorded state it consumed. -/
theorem c5_flat_history_recording (gen : Int) (w : Sessions.WorkerOracle)
    (cache : Option StateExtended) (sess : Sessions.Session) (s : StateExtended)
    (fp tactic : String) (line character : Int)
    (hne : sess.tactics ≠ []) :
    (Sessions.get_state_at_pos_call gen w cache sess fp line character).1.tactics
      = [((Sessions.get_state_at_pos_call gen w cache sess fp line character).2.1, "")] ∧
    (Sessions.get_state_at_pos_call gen w cache sess fp line character).1.mapping_state
      = [] ∧
    Sessions.Effect.archiveSession { sess with generation := some gen }
      ∈ (Sessions.get_state_at_pos_call gen w cache sess fp line character).2.2 ∧
    (Sessions.run_call gen w cache sess s tactic).1.tactics
      = sess.tactics ++ [((Sessions.run_call gen w cache sess s tactic).2.1, tactic)] := by
  refine ⟨rfl, rfl, ?_, ?_⟩
  · unfold Sessions.get_state_at_pos_call
    have hEmpty : ({ sess with generation := some gen } : Sessions.Session).tactics.isEmpty
        = false := by
      simp [List.isEmpty_iff, hne]
    simp [hEmpty]
  · show (Sessions.run_call gen w cache sess s tactic).1.tactics = _
    unfold Sessions.run_call Sessions.pet_ctx_refresh
    simp [Sessions.check_session_preserves_tactics]

/-- C5 witness: the amended statement at a concrete session with a
nonempty two-entry history. -/
theorem c5_flat_history_witness :
    (Sessions.get_state_at_pos_call 1 oracle0 none historySession "g" 5 2).1.tactics
      = [((Sessions.get_state_at_pos_call 1 oracle0 none historySession "g" 5 2).2.1, "")] ∧
    (Sessions.get_state_at_pos_call 1 oracle0 none historySession "g" 5 2).1.mapping_state
      = [] ∧
    Sessions.Effect.archiveSession { historySession with generation := some 1 }
      ∈ (Sessions.get_state_at_pos_call 1 oracle0 none historySession "g" 5 2).2.2 ∧
    (Sessions.run_call 1 oracle0 none historySession recState1 "tac2").1.tactics
      = historySession.tactics
        ++ [((Sessions.run_call 1 oracle0 none historySession recState1 "tac2").2.1, "tac2")] :=
  c5_flat_history_recording 1 oracle0 none historySession recState1 "g" "tac2" 5 2 (by decide)

/-- C7 (corrected, counterexample): `ValueError` is an exception other
than `PetanqueError`, yet `_pet_ctx` re-raises it without setting
`RESTART_NEEDED` and without dropping the worker connection. -/
theorem c7_valueerror_no_restart_counterexample :
    (Sessions.pet_ctx_handle Sessions.ExcKind.value_error).sets_restart_needed = false ∧
    Sessions.ExcKind.value_error ≠ Sessions.ExcKind.petanque_error := by
  decide

/-- C7 (corrected, amended): `_pet_ctx` re-raises `PetanqueError`,
`KeyError` and `ValueError` unchanged, with no status change and no
restart; every exception outside those three classes triggers
`send_kill_signal` (status becomes `RESTART_NEEDED`, the cached worker
connection is dropped) and is surfaced wrapped in `UnresponsiveError`. -/
theorem c7_exception_dispatch (k : Sessions.ExcKind)
    (h1 : k ≠ Sessions.ExcKind.key_error)
    (h2 : k ≠ Sessions.ExcKind.petanque_error)
    (h3 : k ≠ Sessions.ExcKind.value_error) :
    Sessions.pet_ctx_handle k
      = { sets_restart_needed := true, drops_worker_conn := true,
          surfaced := Sessions.SurfacedError.wrapped_unresponsive k } ∧
    Sessions.pet_ctx_handle Sessions.ExcKind.petanque_error
      = { sets_restart_needed := false, drops_worker_conn := false,
          surfaced := Sessions.SurfacedError.reraised Sessions.ExcKind.petanque_error } ∧
    Sessions.pet_ctx_handle Sessions.ExcKind.key_error
      = { sets_restart_needed := false, drops_worker_conn := false,
          surfaced := Sessions.SurfacedError.reraised Sessions.ExcKind.key_error } ∧
    Sessions.pet_ctx_handle Sessions.ExcKind.value_error
      = { sets_restart_needed := false, drops_worker_conn := false,
          surfaced := Sessions.SurfacedError.reraised Sessions.ExcKind.value_error } := by
  cases k <;> simp_all [Sessions.pet_ctx_handle]

/-- C7 witness: the amended dispatch at the concrete `RuntimeError`
raised by a failed `ensure_pet_ok`. -/
theorem c7_exception_dispatch_witness :
    Sessions.pet_ctx_handle Sessions.ExcKind.runtime_error
      = { sets_restart_needed := true, drops_worker_conn := true,
          surfaced := Sessions.SurfacedError.wrapped_unresponsive
            Sessions.ExcKind.runtime_error } ∧
    Sessions.pet_ctx_handle Sessions.ExcKind.petanque_error
      = { sets_restart_needed := false, drops_worker_conn := false,
          surfaced := Sessions.SurfacedError.reraised Sessions.ExcKind.petanque_error } ∧
    Sessions.pet_ctx_handle Sessions.ExcKind.key_error
      = { sets_restart_needed := false, drops_worker_conn := false,
          surfaced := Sessions.SurfacedError.reraised Sessions.ExcKind.key_error } ∧
    Sessions.pet_ctx_handle Sessions.ExcKind.value_error
      = { sets_restart_needed := false, drops_worker_conn := false,
          surfaced := Sessions.SurfacedError.reraised Sessions.ExcKind.value_error } :=
  c7_exception_dispatch Sessions.ExcKind.runtime_error
    (by decide) (by decide) (by decide)

/-- C8 (corrected, counterexample): a call with timeout 0 is not
rejected at all: its trace begins by acquiring the worker lock, contains
no rejection event, and runs the op with no alarm armed. -/
theorem c8_zero_timeout_not_rejected_counterexample :
    Sessions.pet_call_trace 0 (some 0) 15 10
      = [Sessions.CallEvent.acquire_lock 0 25, Sessions.CallEvent.ensure_ok,
         Sessions.CallEvent.reload_session, Sessions.CallEvent.invoke_op,
         Sessions.CallEvent.release_lock] ∧
    (Sessions.pet_call_trace 0 (some 0) 15 10).filter Sessions.CallEvent.is_reject = [] := by
  decide

/-- C8 (corrected, amended): no validation of the `timeout` parameter
exists: for every integer timeout value the call first acquires the
worker lock and never emits a rejection, and the alarm is armed exactly
when the value is nonzero (a falsy 0 disables the alarm entirely, so a
zero-timeout call runs with no deadline). -/
theorem c8_no_timeout_validation (petIdx timeoutOk timeoutEps s : Int) :
    (Sessions.pet_call_trace petIdx (some s) timeoutOk timeoutEps).head?
      = some (Sessions.CallEvent.acquire_lock petIdx (timeoutOk + timeoutEps)) ∧
    (Sessions.pet_call_trace petIdx (some s) timeoutOk timeoutEps).filter
      Sessions.CallEvent.is_reject = [] ∧
    (Sessions.CallEvent.arm_alarm s
        ∈ Sessions.pet_call_trace petIdx (some s) timeoutOk timeoutEps ↔ s ≠ 0) := by
  refine ⟨rfl, ?_, ?_⟩
  · unfold Sessions.pet_call_trace Sessions.alarm_wrap
    by_cases h : s = 0 <;> simp [h, Sessions.CallEvent.is_reject]
  · unfold Sessions.pet_call_trace Sessions.alarm_wrap
    by_cases h : s = 0 <;> simp [h]

/-- C9 (confirmed): `create_session` assigns worker indices round-robin:
the `j`-th of `k` back-to-back creations starting from counter state `c`
is assigned `(c.getD 0 + j + 1) % num_pet_server`, and 100 creations
from an unset counter with 4 workers are split exactly 25/25/25/25
across the indices 0..3. -/
theorem c9_round_robin_assignment :
    (∀ (numPetServer : Int) (k j : Nat) (c : Option Int), j < k →
      (Sessions.assign_seq numPetServer k c).get? j
        = some ((c.getD 0 + j + 1) % numPetServer)) ∧
    (List.range 4).map (fun r => (Sessions.assign_seq 4 100 none).count (r : Int))
      = [25, 25, 25, 25] := by
  constructor
  · intro numPetServer k
    induction k with
    | zero => intro j c h; omega
    | succ m ih =>
        intro j c h
        cases j with
        | zero =>
            simp [Sessions.assign_seq, Sessions.create_session_assign]
        | succ i =>
            have hi : i < m := by omega
            have := ih i (some (c.getD 0 + 1)) hi
            simp only [Sessions.assign_seq, Sessions.create_session_assign]
            rw [List.get?_cons_succ, this]
            congr 2
            simp only [Option.getD_some]
            push_cast
            ring
  · decide

/-- C9 witness: the round-robin formula at the 7th of 100 creations with
4 workers. -/
theorem c9_round_robin_witness :
    (Sessions.assign_seq 4 100 none).get? 6
      = some (((none : Option Int).getD 0 + 6 + 1) % 4) :=
  c9_round_robin_assignment.1 4 100 6 none (by decide)

/-- C10 (confirmed): for a stale session with no recorded filepath,
`check_session` performs no worker RPC: it returns the session with only
the generation field set to the current one — tactics and
`mapping_state` untouched — and its only effect is persisting that
record, so no fresh images are produced for the session's previously
returned states. -/
theorem c10_check_session_no_filepath_frame (gen : Int) (w : Sessions.WorkerOracle)
    (cache : Option StateExtended) (sess : Sessions.Session)
    (hfp : sess.filepath = none) (hstale : sess.generation ≠ some gen) :
    Sessions.check_session gen w cache sess
      = ({ sess with generation := some gen },
         [Sessions.Effect.saveSession { sess with generation := some gen }]) := by
  simp [Sessions.check_session, hstale, hfp]

/-- C10 witness: the frame property at a concrete stale session with
recorded tactics and a nonempty mapping but no filepath. -/
theorem c10_check_session_no_filepath_frame_witness :
    Sessions.check_session 1 oracle0 none staleNofileSession
      = ({ staleNofileSession with generation := some 1 },
         [Sessions.Effect.saveSession { staleNofileSession with generation := some 1 }]) :=
  c10_check_session_no_filepath_frame 1 oracle0 none staleNofileSession rfl (by decide)

/-- JSON-object lookup after prepending one field. -/
theorem jLookup_cons (k : String) (v : Jv) (fs : List (String × Jv)) (key : String) :
    jLookup (Jv.obj ((k, v) :: fs)) key
      = if k = key then some v else jLookup (Jv.obj fs) key := by
  by_cases h : k = key <;> simp [jLookup, List.find?_cons, h]

/-- Mapping a section of a decoder over an encoded list recovers the
list. -/
theorem optionMapList_map_roundtrip {α β : Type} (f : β → Option α) (g : α → β)
    (h : ∀ a, f (g a) = some a) : ∀ l : List α, optionMapList f (l.map g) = some l := by
  intro l
  induction l with
  | nil => rfl
  | cons a rest ih => simp [optionMapList, h, ih]

/-- Round trip for the modelled pytanque `State` serializer. -/
theorem state_roundtrip (s : State) :
    State.from_json (State.to_json s) = some s := by
  obtain ⟨st, pf, fb, hs⟩ := s
  simp only [State.to_json, State.from_json, jLookup_cons]
  simp only [jLookup, List.find?]
  simp [jInt, jStr, jArr, jOptInt, jOptFieldBool, jOptFieldInt,
    optionMapList_map_roundtrip jStr Jv.str (fun a => rfl)]
  cases pf <;> cases hs <;> simp [jOptInt, jInt]

/-- Round trip for the `StateExtended` serializer: the base-state parser
reads the same four fields it would from `State.to_json` (the appended
`generation` entry is invisible to it), and the generation entry decodes
to the original tag. -/
theorem state_extended_roundtrip (s : StateExtended) :
    StateExtended.from_json (StateExtended.to_json s) = some s := by
  obtain ⟨⟨st, pf, fb, hs⟩, g⟩ := s
  simp only [StateExtended.to_json, StateExtended.from_json, State.from_json, jLookup_cons]
  simp only [jLookup, List.find?]
  simp [jInt, jStr, jArr, jOptInt, jOptFieldBool, jOptFieldInt,
    optionMapList_map_roundtrip jStr Jv.str (fun a => rfl)]
  cases pf <;> cases hs <;> simp [jOptInt, jInt]

/-- Round trip for one serialized tactics entry. -/
theorem tactic_from_json_roundtrip (p : StateExtended × String) :
    Sessions.Session.tactic_from_json
      (Jv.arr [StateExtended.to_json p.1, Jv.str p.2]) = some p := by
  obtain ⟨st, tac⟩ := p
  simp [Sessions.Session.tactic_from_json, state_extended_roundtrip]

/-- Round trip for a serialized `mapping_state` dictionary. -/
theorem mapping_entries_roundtrip (mapping : List (String × StateExtended)) :
    optionMapList
      (fun p => (StateExtended.from_json p.2).map (fun v => (p.1, v)))
      (mapping.map (fun p => (p.1, StateExtended.to_json p.2))) = some mapping := by
  apply optionMapList_map_roundtrip
  intro p
  simp [state_extended_roundtrip]

/-- Round trip for a serialized tactics list. -/
theorem tactics_entries_roundtrip (tactics : List (StateExtended × String)) :
    optionMapList Sessions.Session.tactic_from_json
      (tactics.map (fun p => Jv.arr [StateExtended.to_json p.1, Jv.str p.2]))
      = some tactics :=
  optionMapList_map_roundtrip _ _ tactic_from_json_roundtrip tactics

/-- Round trip for the `sessions.py` `Session` serializer. -/
theorem session_record_roundtrip (s : Sessions.Session) :
    Sessions.Session.from_json (Sessions.Session.to_json s) = some s := by
  obtain ⟨sid, petIdx, fp, line, ch, tactics, gen, mapping⟩ := s
  simp only [Sessions.Session.to_json, Sessions.Session.from_json, jLookup_cons]
  simp only [jLookup, List.find?]
  simp [jInt, jStr, jArr, jObj, jOptStr, jOptInt, jOptFieldStr, jOptFieldInt,
    tactics_entries_roundtrip, mapping_entries_roundtrip]
  cases fp <;> cases line <;> cases ch <;> cases gen <;>
    simp [jOptStr, jOptInt, jStr, jInt]

/-- Round trip for `QueryKwargs` away from the falsy timeout: a `None`
timeout or a nonzero timeout survives serialization. -/
theorem query_kwargs_roundtrip (qk : SessionModel.QueryKwargs)
    (h : qk.timeout ≠ some 0) :
    SessionModel.QueryKwargs.from_json (SessionModel.QueryKwargs.to_json qk)
      = some qk := by
  obtain ⟨rn, ps, t⟩ := qk
  simp only [SessionModel.QueryKwargs.to_json, SessionModel.QueryKwargs.from_json,
    jLookup_cons]
  simp only [jLookup, List.find?]
  cases t with
  | none => simp [jStr, jTruthy]
  | some q =>
      have hq : q ≠ 0 := by
        intro h0
        exact h (by rw [h0])
      simp [jStr, jTruthy, hq]

/-- Round trip for a serialized `MappingState` dictionary. -/
theorem state_entries_roundtrip (mapping : List (String × State)) :
    optionMapList
      (fun p => (State.from_json p.2).map (fun v => (p.1, v)))
      (mapping.map (fun p => (p.1, State.to_json p.2))) = some mapping := by
  apply optionMapList_map_roundtrip
  intro p
  simp [state_roundtrip]

/-- Round trip for a serialized `MappingTree` dictionary. -/
theorem string_entries_roundtrip (mapping : List (String × String)) :
    optionMapList
      (fun p => (jStr p.2).map (fun v => (p.1, v)))
      (mapping.map (fun p => (p.1, Jv.str p.2))) = some mapping := by
  apply optionMapList_map_roundtrip
  intro p
  simp [jStr]

/-- Round trip for the `MappingState` serializer. -/
theorem mapping_state_roundtrip (ms : SessionModel.MappingState) :
    SessionModel.MappingState.from_json (SessionModel.MappingState.to_json ms)
      = some ms := by
  obtain ⟨mapping⟩ := ms
  simp only [SessionModel.MappingState.to_json, SessionModel.MappingState.from_json,
    jLookup_cons]
  simp only [jLookup, List.find?]
  simp [jObj, state_entries_roundtrip]

/-- Round trip for the `MappingTree` serializer. -/
theorem mapping_tree_roundtrip (mt : SessionModel.MappingTree) :
    SessionModel.MappingTree.from_json (SessionModel.MappingTree.to_json mt)
      = some mt := by
  obtain ⟨mapping⟩ := mt
  simp only [SessionModel.MappingTree.to_json, SessionModel.MappingTree.from_json,
    jLookup_cons]
  simp only [jLookup, List.find?]
  simp [jObj, string_entries_roundtrip]

/-- Round trip for the `session_model.py` `Session` serializer. -/
theorem model_session_roundtrip (sm : SessionModel.Session) :
    SessionModel.Session.from_json (SessionModel.Session.to_json sm) = some sm := by
  obtain ⟨petIdx, sid⟩ := sm
  simp only [SessionModel.Session.to_json, SessionModel.Session.from_json, jLookup_cons]
  simp only [jLookup, List.find?]
  simp [jStr, jInt]

mutual
/-- Round trip for the `ParamsTree` serializer on any fuel at least the
tree height, for trees avoiding the falsy timeout. -/
theorem ParamsTree_roundtrip :
    ∀ (t : SessionModel.ParamsTree) (n : Nat),
      SessionModel.ParamsTree.height t ≤ n →
      SessionModel.ParamsTree.good_timeouts t = true →
      SessionModel.ParamsTree.from_json n (SessionModel.ParamsTree.to_json t) = some t
  | SessionModel.ParamsTree.mk sk qk nodeId cs, n, hh, hg => by
      cases n with
      | zero =>
          exfalso
          simp [SessionModel.ParamsTree.height] at hh
      | succ m =>
          have hhm : SessionModel.ParamsTreeChildren.height_list cs ≤ m := by
            simp [SessionModel.ParamsTree.height] at hh
            omega
          have hgood : (qk.timeout != some 0) = true ∧
              SessionModel.ParamsTreeChildren.good_timeouts_list cs = true := by
            simpa [SessionModel.ParamsTree.good_timeouts, Bool.and_eq_true] using hg
          have hqk : qk.timeout ≠ some 0 := by
            simpa using hgood.1
          have hcs := ParamsTreeChildren_roundtrip cs m hhm hgood.2
          simp only [SessionModel.ParamsTree.to_json, SessionModel.ParamsTree.from_json,
            jLookup_cons]
          simp only [jLookup, List.find?]
          simp [jStr, jArr, query_kwargs_roundtrip qk hqk, hcs]

/-- Round trip for a serialized children list on any fuel at least the
maximal child height. -/
theorem ParamsTreeChildren_roundtrip :
    ∀ (cs : SessionModel.ParamsTreeChildren) (n : Nat),
      SessionModel.ParamsTreeChildren.height_list cs ≤ n →
      SessionModel.ParamsTreeChildren.good_timeouts_list cs = true →
      SessionModel.ParamsTreeChildren.from_json_list n
        (SessionModel.ParamsTreeChildren.to_json_list cs) = some cs
  | SessionModel.ParamsTreeChildren.nil, n, _, _ => by
      simp [SessionModel.ParamsTreeChildren.to_json_list,
        SessionModel.ParamsTreeChildren.from_json_list]
  | SessionModel.ParamsTreeChildren.cons c rest, n, hh, hg => by
      have hhc : SessionModel.ParamsTree.height c ≤ n := by
        simp [SessionModel.ParamsTreeChildren.height_list] at hh
        omega
      have hhr : SessionModel.ParamsTreeChildren.height_list rest ≤ n := by
        simp [SessionModel.ParamsTreeChildren.height_list] at hh
        omega
      have hgood : SessionModel.ParamsTree.good_timeouts c = true ∧
          SessionModel.ParamsTreeChildren.good_timeouts_list rest = true := by
        simpa [SessionModel.ParamsTreeChildren.good_timeouts_list, Bool.and_eq_true]
          using hg
      have hc := ParamsTree_roundtrip c n hhc hgood.1
      have hr := ParamsTreeChildren_roundtrip rest n hhr hgood.2
      simp [SessionModel.ParamsTreeChildren.to_json_list,
        SessionModel.ParamsTreeChildren.from_json_list, hc, hr]
end

/-- C6 (corrected, counterexample): a `QueryKwargs` whose timeout is the
float 0 does not survive the round trip: `from_json` applies Python
truthiness to the stored timeout (`float(data["timeout"]) if
data['timeout'] else None`), so the falsy 0 deserializes to `None`. -/
theorem c6_querykwargs_zero_timeout_counterexample :
    SessionModel.QueryKwargs.from_json
        (SessionModel.QueryKwargs.to_json
          { route_name := "run", params := Jv.null, timeout := some 0 })
      = some { route_name := "run", params := Jv.null, timeout := none } ∧
    ({ route_name := "run", params := Jv.null, timeout := none } :
        SessionModel.QueryKwargs)
      ≠ { route_name := "run", params := Jv.null, timeout := some 0 } := by
  constructor
  · rfl
  · intro hEq
    have := congrArg SessionModel.QueryKwargs.timeout hEq
    simp at this

/-- C6 (corrected, amended): deserialization after serialization is the
identity for every persisted record — `sessions.py` `Session`,
`ParamsTree` (on any fuel at least its height), `MappingState`,
`MappingTree`, the `session_model.py` `Session` — and for `QueryKwargs`
whenever its timeout is not the falsy 0 (a zero timeout deserializes to
`None`; every tree node is subject to the same proviso). -/
theorem c6_serialization_roundtrip (qk : SessionModel.QueryKwargs)
    (s : Sessions.Session) (t : SessionModel.ParamsTree) (n : Nat)
    (ms : SessionModel.MappingState) (mt : SessionModel.MappingTree)
    (sm : SessionModel.Session)
    (hqk : qk.timeout ≠ some 0)
    (ht : SessionModel.ParamsTree.good_timeouts t = true)
    (hn : SessionModel.ParamsTree.height t ≤ n) :
    SessionModel.QueryKwargs.from_json (SessionModel.QueryKwargs.to_json qk)
      = some qk ∧
    Sessions.Session.from_json (Sessions.Session.to_json s) = some s ∧
    SessionModel.ParamsTree.from_json n (SessionModel.ParamsTree.to_json t)
      = some t ∧
    SessionModel.MappingState.from_json (SessionModel.MappingState.to_json ms)
      = some ms ∧
    SessionModel.MappingTree.from_json (SessionModel.MappingTree.to_json mt)
      = some mt ∧
    SessionModel.Session.from_json (SessionModel.Session.to_json sm) = some sm :=
  ⟨query_kwargs_roundtrip qk hqk, session_record_roundtrip s,
   ParamsTree_roundtrip t n hn ht, mapping_state_roundtrip ms,
   mapping_tree_roundtrip mt, model_session_roundtrip sm⟩

/-- C6 witness: the round trip at concrete populated records, with fuel
2 for the two-level sample tree. -/
theorem c6_serialization_roundtrip_witness :
    SessionModel.QueryKwargs.from_json (SessionModel.QueryKwargs.to_json qkSample)
      = some qkSample ∧
    Sessions.Session.from_json (Sessions.Session.to_json sessSample)
      = some sessSample ∧
    SessionModel.ParamsTree.from_json 2 (SessionModel.ParamsTree.to_json treeSample)
      = some treeSample ∧
    SessionModel.MappingState.from_json (SessionModel.MappingState.to_json msSample)
      = some msSample ∧
    SessionModel.MappingTree.from_json (SessionModel.MappingTree.to_json mtSample)
      = some mtSample ∧
    SessionModel.Session.from_json (SessionModel.Session.to_json smSample)
      = some smSample :=
  c6_serialization_roundtrip qkSample sessSample treeSample 2 msSample mtSample
    smSample (by decide) (by decide) (by decide)
